import Mathlib

/-
Verification of the mcp-servarr server (src/server.py and src/http_server.py).

The Python sources are shallowly embedded: JSON values become `JValue`,
Python exceptions become `PyError`, `datetime` objects become `PyDateTime`
(microsecond-resolution proleptic-Gregorian timestamps with an optional UTC
offset, mirroring naive vs aware datetimes), and each facade operation
becomes a pure function from a network oracle to
`Except PyError String × List HttpRequest` where the list records the
outbound HTTP requests that were attempted.
-/

namespace Servarr

/-- JSON value as received from a backend.  Numbers are modelled as integers
(the fields the code reads - years, ids, season and episode numbers, byte
counts - are integral). -/
inductive JValue where
  | str (s : String)
  | num (n : Int)
  | bool (b : Bool)
  | null
  | arr (xs : List JValue)
  | obj (fields : List (String × JValue))

/-- Python exception kinds raised by the modelled code paths. -/
inductive PyError where
  | keyError (k : String)
  | typeError (msg : String)
  | valueError (msg : String)
  | attributeError (msg : String)
  | apiError (msg : String)
  | jsonDecodeError (msg : String)
  | transportError (msg : String)
deriving DecidableEq

/-- Python str(e) for an exception, as interpolated into "Error: ..." texts. -/
def PyError.toText : PyError → String
  | .keyError k => "\x27" ++ k ++ "\x27"
  | .typeError m => m
  | .valueError m => m
  | .attributeError m => m
  | .apiError m => m
  | .jsonDecodeError m => m
  | .transportError m => m

/-- First-match lookup in an association list, like a Python dict read
(the dicts built by this code never carry duplicate keys). -/
def lookupField : List (String × JValue) → String → Option JValue
  | [], _ => none
  | (k, v) :: rest, key => if k == key then some v else lookupField rest key

/-- Python subscript `d[k]` on a dict: KeyError when the key is absent. -/
def dictGetItem (fields : List (String × JValue)) (k : String) : Except PyError JValue :=
  match lookupField fields k with
  | some v => .ok v
  | none => .error (.keyError k)

/-- Python subscript on a JSON value: only dicts are subscriptable here. -/
def JValue.getItem : JValue → String → Except PyError JValue
  | .obj fields, k => dictGetItem fields k
  | _, _ => .error (.typeError "object is not subscriptable")

/-- Python `d.get(k, default)` on a JSON value; non-dicts have no `get`. -/
def JValue.getAttrD : JValue → String → JValue → Except PyError JValue
  | .obj fields, k, dflt => .ok ((lookupField fields k).getD dflt)
  | _, _, _ => .error (.attributeError "object has no attribute get")

/-- Python truthiness of a JSON value. -/
def truthy : JValue → Bool
  | .str s => !s.isEmpty
  | .num n => n != 0
  | .bool b => b
  | .null => false
  | .arr xs => !xs.isEmpty
  | .obj fields => !fields.isEmpty

/-- Python str() of a value, for f-string interpolation.  The interpolated
values on the modelled paths are strings, integers and None; container
rendering is never reached and is left abstract. -/
def pyStr : JValue → String
  | .str s => s
  | .num n => toString n
  | .bool b => if b then "True" else "False"
  | .null => "None"
  | .arr _ => "<list>"
  | .obj _ => "<dict>"

/-- Coerce to str for methods like `.lower()` / `.replace(...)`; anything
else raises AttributeError, as in Python. -/
def asStr : JValue → Except PyError String
  | .str s => .ok s
  | _ => .error (.attributeError "object has no attribute lower")

/-- Iteration `for x in v` requires a JSON array here. -/
def asList : JValue → Except PyError (List JValue)
  | .arr xs => .ok xs
  | _ => .error (.typeError "object is not iterable")

/-- Value accepted by `timedelta(days=...)`: a number; anything else raises
TypeError inside timedelta. -/
def asDays : JValue → Except PyError Int
  | .num n => .ok n
  | _ => .error (.typeError "unsupported type for timedelta days component")

/-- Value accepted by a `:02d` format spec: an int. -/
def asFmtInt : JValue → Except PyError Int
  | .num n => .ok n
  | _ => .error (.valueError "Unknown format code \x27d\x27 for object of type \x27str\x27")

/-- Left operand of `/ (1024**2)`: a number. -/
def asNum : JValue → Except PyError Int
  | .num n => .ok n
  | _ => .error (.typeError "unsupported operand type(s) for /")

/-- Python ASCII case folding, as used by `str.lower()` on the titles and
queries exercised here. -/
def pyLower (s : String) : String :=
  String.mk (s.data.map Char.toLower)

/-- Prefix test on character lists (empty needle is a prefix of anything,
matching the semantics of the Python `in` operator for strings). -/
def listStartsWith : List Char → List Char → Bool
  | [], _ => true
  | _ :: _, [] => false
  | a :: as, b :: bs => a == b && listStartsWith as bs

/-- Python substring test `needle in hay`. -/
def strContains (hay needle : String) : Bool :=
  (List.range (hay.data.length + 1)).any fun i =>
    listStartsWith needle.data (hay.data.drop i)

/-- Strict lexicographic order on strings by code point, as used by the
Python sort over `added` timestamp strings. -/
def listCharLt : List Char → List Char → Bool
  | [], [] => false
  | [], _ :: _ => true
  | _ :: _, [] => false
  | a :: as, b :: bs => a < b || (a == b && listCharLt as bs)

def strLt (a b : String) : Bool := listCharLt a.data b.data

/-- Zero-padded decimal rendering of width `w`. -/
def padNat (w n : Nat) : String :=
  let s := toString n
  let k := s.length
  (String.mk (List.replicate (w - k) (Char.ofNat 48))) ++ s

/-- Python `f"S{n:02d}"` body for an int. -/
def fmt02 (n : Int) : String :=
  if n < 0 then toString n
  else padNat 2 n.toNat

/-- Format num/den to two decimal places with round-half-to-even, the
rounding Python applies when printing `num / den` with `:.2f` (the quotients
arising here, byte counts over powers of two, are exact binary floats). -/
def fixed2Nat (num den : Nat) : String :=
  let b := num * 100
  let q := b / den
  let r := b % den
  let q := if den < 2 * r then q + 1
           else if 2 * r < den then q
           else if q % 2 == 1 then q + 1 else q
  toString (q / 100) ++ "." ++ padNat 2 (q % 100)

def fixed2Int (n : Int) (den : Nat) : String :=
  if n < 0 then "-" ++ fixed2Nat n.natAbs den else fixed2Nat n.toNat den

/-- Python datetime: naive components linearized to microseconds since the
proleptic-Gregorian epoch 0001-01-01T00:00:00, plus the utcoffset in seconds
when the object is timezone-aware (`offset = none` means naive). -/
structure PyDateTime where
  usec : Int
  offset : Option Int
deriving DecidableEq

/-- Python comparison `a > b` on datetimes: comparing a naive and an aware
datetime raises TypeError; two aware datetimes compare by UTC instant. -/
def pyDTgt (a b : PyDateTime) : Except PyError Bool :=
  match a.offset, b.offset with
  | none, none => .ok (decide (b.usec < a.usec))
  | some oa, some ob => .ok (decide (b.usec - ob * 1000000 < a.usec - oa * 1000000))
  | _, _ => .error (.typeError "can\x27t compare offset-naive and offset-aware datetimes")

def isLeap (y : Nat) : Bool :=
  (y % 4 == 0 && y % 100 != 0) || y % 400 == 0

/-- Days in the year before the first day of month `m` (1-based), non-leap. -/
def daysBeforeMonth (m : Nat) : Nat :=
  [0, 0, 31, 59, 90, 120, 151, 181, 212, 243, 273, 304, 334].getD m 0

/-- Proleptic-Gregorian ordinal of a civil date (0001-01-01 is day 1),
the same quantity CPython's `datetime.toordinal` computes. -/
def toOrdinal (y m d : Nat) : Nat :=
  (y - 1) * 365 + (y - 1) / 4 - (y - 1) / 100 + (y - 1) / 400 +
    daysBeforeMonth m + (if isLeap y && decide (2 < m) then 1 else 0) + d

/-- Microseconds since 0001-01-01T00:00:00 for civil components. -/
def civilUsec (y m d h mi s us : Nat) : Int :=
  (((toOrdinal y m d - 1) * 86400 + h * 3600 + mi * 60 + s) * 1000000 + us : Nat)

def monthLen (leap : Bool) (m : Nat) : Nat :=
  match m with
  | 2 => if leap then 29 else 28
  | 4 => 30 | 6 => 30 | 9 => 30 | 11 => 30
  | _ => 31

/-- Month and 0-based day for a 0-based day-of-year, walking the month table
with explicit fuel (12 months suffice). -/
def monthFromDoy : Bool → Nat → Nat → Nat → Nat × Nat
  | _, 0, m, doy => (m, doy)
  | leap, fuel + 1, m, doy =>
      if doy < monthLen leap m then (m, doy)
      else monthFromDoy leap fuel (m + 1) (doy - monthLen leap m)

/-- Civil date from a proleptic-Gregorian ordinal (inverse of `toOrdinal`),
following CPython's `_ord2ymd` era decomposition. -/
def ord2ymd (n : Nat) : Nat × Nat × Nat :=
  let n0 := n - 1
  let n400 := n0 / 146097
  let r0 := n0 % 146097
  let n100 := min (r0 / 36524) 3
  let r1 := r0 - n100 * 36524
  let n4 := r1 / 1461
  let r2 := r1 % 1461
  let n1 := min (r2 / 365) 3
  let r3 := r2 - n1 * 365
  let y := 400 * n400 + 100 * n100 + 4 * n4 + n1 + 1
  let md := monthFromDoy (isLeap y) 12 1 r3
  (y, md.1, md.2 + 1)

/-- Python `datetime.isoformat()` for a naive datetime with nonnegative
linearization: seconds always printed, microseconds only when nonzero. -/
def isoformatNaive (usec : Int) : String :=
  let t := usec.toNat
  let us := t % 1000000
  let t1 := t / 1000000
  let s := t1 % 60
  let t2 := t1 / 60
  let mi := t2 % 60
  let t3 := t2 / 60
  let h := t3 % 24
  let ymd := ord2ymd (t3 / 24 + 1)
  padNat 4 ymd.1 ++ "-" ++ padNat 2 ymd.2.1 ++ "-" ++ padNat 2 ymd.2.2 ++ "T" ++
    padNat 2 h ++ ":" ++ padNat 2 mi ++ ":" ++ padNat 2 s ++
    (if us == 0 then "" else "." ++ padNat 6 us)

/-- Read exactly `k` decimal digits. -/
def readFixedNat : Nat → List Char → Nat → Option (Nat × List Char)
  | 0, cs, acc => some (acc, cs)
  | k + 1, c :: cs, acc =>
      if c.isDigit then readFixedNat k cs (acc * 10 + (c.toNat - 48)) else none
  | _ + 1, [], _ => none

def expectChar (ch : Char) : List Char → Option (List Char)
  | c :: cs => if c == ch then some cs else none
  | [] => none

/-- Fractional-second digits scaled to microseconds (first six digits,
right-padded with zeros), as CPython does. -/
def usFromDigits (ds : List Char) : Nat :=
  ((ds.take 6).foldl (fun a c => a * 10 + (c.toNat - 48)) 0) *
    10 ^ (6 - min ds.length 6)

/-- Optional trailing utcoffset `±HH:MM[:SS]`; fails on anything else left. -/
def parseIsoTail : List Char → Option (Option Int)
  | [] => some none
  | c :: cs =>
      if c == '+' || c == '-' then
        match readFixedNat 2 cs 0 with
        | none => none
        | some (oh, cs1) =>
          match expectChar ':' cs1 with
          | none => none
          | some cs2 =>
            match readFixedNat 2 cs2 0 with
            | none => none
            | some (om, cs3) =>
              let core : Int := (oh * 3600 + om * 60 : Nat)
              let signed : Int := if c == '-' then -core else core
              match cs3 with
              | [] => some (some signed)
              | c4 :: cs4 =>
                  if c4 == ':' then
                    match readFixedNat 2 cs4 0 with
                    | some (os, []) => some (some (if c == '-' then signed - os else signed + os))
                    | _ => none
                  else none
      else none

/-- Python `datetime.fromisoformat`: `YYYY-MM-DD`, optionally a single
separator character, `HH:MM[:SS[.ffffff]]` and a `±HH:MM[:SS]` utcoffset.
Returns an aware datetime exactly when an offset is present. -/
def fromisoformat (s : String) : Except PyError PyDateTime :=
  let bad : Except PyError PyDateTime :=
    .error (.valueError ("Invalid isoformat string: \x27" ++ s ++ "\x27"))
  match readFixedNat 4 s.data 0 with
  | none => bad
  | some (y, r1) =>
    match expectChar '-' r1 with
    | none => bad
    | some r2 =>
      match readFixedNat 2 r2 0 with
      | none => bad
      | some (mo, r3) =>
        match expectChar '-' r3 with
        | none => bad
        | some r4 =>
          match readFixedNat 2 r4 0 with
          | none => bad
          | some (d, r5) =>
            if !(1 ≤ mo && mo ≤ 12 && 1 ≤ d && d ≤ monthLen (isLeap y) mo) then bad
            else
              match r5 with
              | [] => .ok ⟨civilUsec y mo d 0 0 0 0, none⟩
              | _ :: r6 =>
                match readFixedNat 2 r6 0 with
                | none => bad
                | some (h, r7) =>
                  match expectChar ':' r7 with
                  | none => bad
                  | some r8 =>
                    match readFixedNat 2 r8 0 with
                    | none => bad
                    | some (mi, r9) =>
                      if !(h ≤ 23 && mi ≤ 59) then bad
                      else
                        match r9 with
                        | ':' :: r10 =>
                          match readFixedNat 2 r10 0 with
                          | none => bad
                          | some (sec, r11) =>
                            if !(sec ≤ 59) then bad
                            else
                              match r11 with
                              | '.' :: r12 =>
                                let ds := r12.takeWhile Char.isDigit
                                let rest := r12.dropWhile Char.isDigit
                                if ds.isEmpty then bad
                                else
                                  match parseIsoTail rest with
                                  | none => bad
                                  | some off =>
                                      .ok ⟨civilUsec y mo d h mi sec (usFromDigits ds), off⟩
                              | _ =>
                                match parseIsoTail r11 with
                                | none => bad
                                | some off => .ok ⟨civilUsec y mo d h mi sec 0, off⟩
                        | _ =>
                          match parseIsoTail r9 with
                          | none => bad
                          | some off => .ok ⟨civilUsec y mo d h mi 0 0, off⟩

/-- Python `s.replace(pat, rep)` for a single-character pattern (the only
use in the source replaces every occurrence of the character Z). -/
def pyReplaceChar (pat : Char) (rep : List Char) : List Char → List Char
  | [] => []
  | c :: cs => (if c == pat then rep else [c]) ++ pyReplaceChar pat rep cs

/-- The parse applied to an `added` field in `get_recent_series` /
`get_recent_movies`: `datetime.fromisoformat(s.replace("Z", "+00:00"))`. -/
def parseAdded (s : String) : Except PyError PyDateTime :=
  fromisoformat (String.mk (pyReplaceChar 'Z' "+00:00".data s.data))

inductive Method where
  | get
  | post
deriving DecidableEq

/-- An outbound HTTP request as built by `APIClient`: the target URL is
`base_url + "/api/v3/" + endpoint`, the API key rides in a fixed header, GET
may carry query params and POST carries a JSON body. -/
structure HttpRequest where
  method : Method
  url : String
  apiKey : String
  params : List (String × String)
  body : Option JValue

/-- The backend's answer: a status code and the JSON decode of the body
(`none` when the body is empty or not valid JSON). -/
structure HttpResponse where
  status : Nat
  jsonBody : Option JValue

/-- The network oracle: what the remote side does with a request.  An
`error` is a transport failure (connection error or timeout) raised by the
underlying client. -/
def Net : Type := HttpRequest → Except PyError HttpResponse

/-- Generic API client for Sonarr/Radarr: a base URL and an API key. -/
structure APIClient where
  base_url : String
  api_key : String

def is2xx (status : Nat) : Bool := 200 ≤ status && status < 300

def APIClient.getReq (c : APIClient) (endpoint : String)
    (params : List (String × String)) : HttpRequest :=
  ⟨.get, c.base_url ++ "/api/v3/" ++ endpoint, c.api_key, params, none⟩

def APIClient.postReq (c : APIClient) (endpoint : String) (body : JValue) : HttpRequest :=
  ⟨.post, c.base_url ++ "/api/v3/" ++ endpoint, c.api_key, [], some body⟩

/-- APIClient.get: one attempt; `raise_for_status` turns a non-2xx status
into `Exception("API request failed: <status>")`, then the body is decoded
as JSON; transport failures propagate unchanged. -/
def APIClient.get (c : APIClient) (net : Net) (endpoint : String)
    (params : List (String × String)) : Except PyError JValue × List HttpRequest :=
  let req := c.getReq endpoint params
  (match net req with
   | .error e => .error e
   | .ok resp =>
     if is2xx resp.status then
       match resp.jsonBody with
       | some j => .ok j
       | none => .error (.jsonDecodeError "Expecting value: line 1 column 1 (char 0)")
     else .error (.apiError ("API request failed: " ++ toString resp.status)),
   [req])

/-- APIClient.post: same contract as `get`, with a JSON body. -/
def APIClient.post (c : APIClient) (net : Net) (endpoint : String)
    (body : JValue) : Except PyError JValue × List HttpRequest :=
  let req := c.postReq endpoint body
  (match net req with
   | .error e => .error e
   | .ok resp =>
     if is2xx resp.status then
       match resp.jsonBody with
       | some j => .ok j
       | none => .error (.jsonDecodeError "Expecting value: line 1 column 1 (char 0)")
     else .error (.apiError ("API request failed: " ++ toString resp.status)),
   [req])

/-- Configuration from environment variables. -/
structure Config where
  sonarr_url : String
  sonarr_api_key : String
  radarr_url : String
  radarr_api_key : String
deriving DecidableEq

/-- Config.validate_service: a service is configured iff both its URL and
its API key are non-empty. -/
def Config.validate_service (cfg : Config) (service : String) : Bool :=
  if service == "sonarr" then !cfg.sonarr_url.isEmpty && !cfg.sonarr_api_key.isEmpty
  else if service == "radarr" then !cfg.radarr_url.isEmpty && !cfg.radarr_api_key.isEmpty
  else false

/-- The Sonarr client the constructor builds iff the service is configured
(`self.sonarr_client`). -/
def mkSonarrClient (cfg : Config) : Option APIClient :=
  if cfg.validate_service "sonarr" then some ⟨cfg.sonarr_url, cfg.sonarr_api_key⟩ else none

/-- The Radarr client the constructor builds iff the service is configured
(`self.radarr_client`). -/
def mkRadarrClient (cfg : Config) : Option APIClient :=
  if cfg.validate_service "radarr" then some ⟨cfg.radarr_url, cfg.radarr_api_key⟩ else none

/-- External state a request executes against: one network oracle per
backend and the current naive local time (`datetime.now()`), linearized to
microseconds. -/
structure World where
  sonarrNet : Net
  radarrNet : Net
  nowUsec : Int

/-- Sort key `x["added"]` used by `recent.sort`; the entries built by the
recent loops always carry the key, holding the original timestamp string. -/
def addedKey (e : List (String × JValue)) : String :=
  match lookupField e "added" with
  | some (.str s) => s
  | _ => ""

/-- Insert an element after every element whose key is at least as large:
together with the left fold below this is exactly a stable descending sort,
the semantics of Python `list.sort(key=..., reverse=True)`. -/
def insertByAddedDesc (a : List (String × JValue)) :
    List (List (String × JValue)) → List (List (String × JValue))
  | [] => [a]
  | b :: bs => if strLt (addedKey b) (addedKey a) then a :: b :: bs
               else b :: insertByAddedDesc a bs

def sortByAddedDesc (xs : List (List (String × JValue))) :
    List (List (String × JValue)) :=
  xs.foldl (fun acc a => insertByAddedDesc a acc) []

/-- Loop of `get_recent_series`: parse each show's `added`, compare with the
cutoff (a comparison that can raise), and for kept shows build the dict
`{title, year, added, status, network, seasons}` exactly as the source does
(optional fields read with `.get`, so a missing one is stored as None). -/
def buildRecentSeries (cutoff : PyDateTime) :
    List JValue → Except PyError (List (List (String × JValue)))
  | [] => .ok []
  | sh :: rest => do
      let addedJ ← sh.getItem "added"
      let addedS ← asStr addedJ
      let added ← parseAdded addedS
      let keep ← pyDTgt added cutoff
      if keep then do
        let title ← sh.getItem "title"
        let year ← sh.getAttrD "year" .null
        let status ← sh.getItem "status"
        let network ← sh.getAttrD "network" .null
        let seasons ← sh.getAttrD "seasonCount" (.num 0)
        let rest' ← buildRecentSeries cutoff rest
        pure ([("title", title), ("year", year), ("added", addedJ), ("status", status),
               ("network", network), ("seasons", seasons)] :: rest')
      else
        buildRecentSeries cutoff rest

/-- Per-entry rendering of `get_recent_series`; note the source reads the
network with `.get("network", "Unknown")` on a dict that always carries the
key, so the "Unknown" default is dead and a missing field prints as None. -/
def renderRecentSeries1 (e : List (String × JValue)) : Except PyError String := do
  let title ← dictGetItem e "title"
  let year ← dictGetItem e "year"
  let added ← dictGetItem e "added"
  let network := (lookupField e "network").getD (.str "Unknown")
  let seasons ← dictGetItem e "seasons"
  pure ("- " ++ pyStr title ++ " (" ++ pyStr year ++ ")\n" ++
        "  Added: " ++ pyStr added ++ "\n" ++
        "  Network: " ++ pyStr network ++ "\n" ++
        "  Seasons: " ++ pyStr seasons ++ "\n\n")

def renderEntriesE {α : Type} (render1 : α → Except PyError String) :
    List α → Except PyError String
  | [] => .ok ""
  | x :: xs => do
      let s ← render1 x
      let rest ← renderEntriesE render1 xs
      pure (s ++ rest)

/-- get_recent_series: fetch the full series list, keep shows whose `added`
is strictly after `now - timedelta(days)`, sort by the raw `added` string
descending, and render. -/
def get_recent_series (c : APIClient) (net : Net) (nowUsec : Int) (days : JValue) :
    Except PyError String × List HttpRequest :=
  let fetched := c.get net "series" []
  (match fetched.1 with
   | .error e => .error e
   | .ok seriesJ => do
      let d ← asDays days
      let cutoff : PyDateTime := ⟨nowUsec - d * 86400000000, none⟩
      let shows ← asList seriesJ
      let recent ← buildRecentSeries cutoff shows
      let sorted := sortByAddedDesc recent
      if sorted.isEmpty then
        pure ("No series added in the last " ++ pyStr days ++ " days.")
      else do
        let body ← renderEntriesE renderRecentSeries1 sorted
        pure ("Recently added series (last " ++ pyStr days ++ " days):\n\n" ++ body),
   fetched.2)

/-- Loop of `get_recent_movies`, building `{title, year, added, status,
studio}` for each kept movie. -/
def buildRecentMovies (cutoff : PyDateTime) :
    List JValue → Except PyError (List (List (String × JValue)))
  | [] => .ok []
  | mv :: rest => do
      let addedJ ← mv.getItem "added"
      let addedS ← asStr addedJ
      let added ← parseAdded addedS
      let keep ← pyDTgt added cutoff
      if keep then do
        let title ← mv.getItem "title"
        let year ← mv.getAttrD "year" .null
        let status ← mv.getItem "status"
        let studio ← mv.getAttrD "studio" .null
        let rest' ← buildRecentMovies cutoff rest
        pure ([("title", title), ("year", year), ("added", addedJ), ("status", status),
               ("studio", studio)] :: rest')
      else
        buildRecentMovies cutoff rest

/-- Per-entry rendering of `get_recent_movies`; as for series, the
`.get("studio", "Unknown")` default can never fire. -/
def renderRecentMovies1 (e : List (String × JValue)) : Except PyError String := do
  let title ← dictGetItem e "title"
  let year ← dictGetItem e "year"
  let added ← dictGetItem e "added"
  let studio := (lookupField e "studio").getD (.str "Unknown")
  pure ("- " ++ pyStr title ++ " (" ++ pyStr year ++ ")\n" ++
        "  Added: " ++ pyStr added ++ "\n" ++
        "  Studio: " ++ pyStr studio ++ "\n\n")

/-- get_recent_movies, symmetric to `get_recent_series`. -/
def get_recent_movies (c : APIClient) (net : Net) (nowUsec : Int) (days : JValue) :
    Except PyError String × List HttpRequest :=
  let fetched := c.get net "movie" []
  (match fetched.1 with
   | .error e => .error e
   | .ok moviesJ => do
      let d ← asDays days
      let cutoff : PyDateTime := ⟨nowUsec - d * 86400000000, none⟩
      let movies ← asList moviesJ
      let recent ← buildRecentMovies cutoff movies
      let sorted := sortByAddedDesc recent
      if sorted.isEmpty then
        pure ("No movies added in the last " ++ pyStr days ++ " days.")
      else do
        let body ← renderEntriesE renderRecentMovies1 sorted
        pure ("Recently added movies (last " ++ pyStr days ++ " days):\n\n" ++ body),
   fetched.2)

/-- List comprehension of the search operations:
`[s for s in series if query.lower() in s["title"].lower()]`, with Python's
left-to-right evaluation of the `in` operands. -/
def searchFilterE (query : JValue) : List JValue → Except PyError (List JValue)
  | [] => .ok []
  | s :: rest => do
      let qs ← asStr query
      let titleJ ← s.getItem "title"
      let titleS ← asStr titleJ
      let rest' ← searchFilterE query rest
      pure (if strContains (pyLower titleS) (pyLower qs) then s :: rest' else rest')

/-- Per-match rendering of `search_sonarr_series`. -/
def renderSearchSeries1 (s : JValue) : Except PyError String := do
  let title ← s.getItem "title"
  let year ← s.getAttrD "year" (.str "N/A")
  let status ← s.getItem "status"
  let seasons ← s.getAttrD "seasonCount" (.num 0)
  let id ← s.getItem "id"
  pure ("- " ++ pyStr title ++ " (" ++ pyStr year ++ ")\n" ++
        "  Status: " ++ pyStr status ++ "\n" ++
        "  Seasons: " ++ pyStr seasons ++ "\n" ++
        "  ID: " ++ pyStr id ++ "\n\n")

/-- search_sonarr_series: fetch the full series list, keep case-insensitive
substring title matches, render the first 10 matches. -/
def search_sonarr_series (c : APIClient) (net : Net) (query : JValue) :
    Except PyError String × List HttpRequest :=
  let fetched := c.get net "series" []
  (match fetched.1 with
   | .error e => .error e
   | .ok seriesJ => do
      let shows ← asList seriesJ
      let hits ← searchFilterE query shows
      if hits.isEmpty then
        pure ("No series found matching \x27" ++ pyStr query ++ "\x27.")
      else do
        let body ← renderEntriesE renderSearchSeries1 (hits.take 10)
        pure ("Series matching \x27" ++ pyStr query ++ "\x27:\n\n" ++ body),
   fetched.2)

/-- Per-match rendering of `search_radarr_movies`. -/
def renderSearchMovies1 (m : JValue) : Except PyError String := do
  let title ← m.getItem "title"
  let year ← m.getAttrD "year" (.str "N/A")
  let status ← m.getItem "status"
  let id ← m.getItem "id"
  pure ("- " ++ pyStr title ++ " (" ++ pyStr year ++ ")\n" ++
        "  Status: " ++ pyStr status ++ "\n" ++
        "  ID: " ++ pyStr id ++ "\n\n")

/-- search_radarr_movies, symmetric to `search_sonarr_series`. -/
def search_radarr_movies (c : APIClient) (net : Net) (query : JValue) :
    Except PyError String × List HttpRequest :=
  let fetched := c.get net "movie" []
  (match fetched.1 with
   | .error e => .error e
   | .ok moviesJ => do
      let movies ← asList moviesJ
      let hits ← searchFilterE query movies
      if hits.isEmpty then
        pure ("No movies found matching \x27" ++ pyStr query ++ "\x27.")
      else do
        let body ← renderEntriesE renderSearchMovies1 (hits.take 10)
        pure ("Movies matching \x27" ++ pyStr query ++ "\x27:\n\n" ++ body),
   fetched.2)

/-- Per-episode rendering of `get_sonarr_calendar`. -/
def renderCalendarEp1 (ep : JValue) : Except PyError String := do
  let airDate ← ep.getAttrD "airDateUtc" (.str "Unknown")
  let seriesJ ← ep.getItem "series"
  let title ← seriesJ.getItem "title"
  let sn ← asFmtInt (← ep.getItem "seasonNumber")
  let en ← asFmtInt (← ep.getItem "episodeNumber")
  let epTitle ← ep.getAttrD "title" (.str "TBA")
  pure ("- " ++ pyStr title ++ " - S" ++ fmt02 sn ++ "E" ++ fmt02 en ++ "\n" ++
        "  Title: " ++ pyStr epTitle ++ "\n" ++
        "  Airs: " ++ pyStr airDate ++ "\n\n")

/-- get_sonarr_calendar: query the calendar endpoint for `[now, now+days]`
(naive local ISO strings) and render in the order returned. -/
def get_sonarr_calendar (c : APIClient) (net : Net) (nowUsec : Int) (days : JValue) :
    Except PyError String × List HttpRequest :=
  match asDays days with
  | .error e => (.error e, [])
  | .ok d =>
    let endUsec := nowUsec + d * 86400000000
    let fetched := c.get net "calendar"
      [("start", isoformatNaive nowUsec), ("end", isoformatNaive endUsec)]
    (match fetched.1 with
     | .error e => .error e
     | .ok calJ => do
        if !truthy calJ then
          pure ("No episodes airing in the next " ++ pyStr days ++ " days.")
        else do
          let eps ← asList calJ
          let body ← renderEntriesE renderCalendarEp1 eps
          pure ("Upcoming episodes (next " ++ pyStr days ++ " days):\n\n" ++ body),
     fetched.2)

/-- Per-movie rendering of `get_radarr_calendar`. -/
def renderCalendarMovie1 (mv : JValue) : Except PyError String := do
  let title ← mv.getItem "title"
  let year ← mv.getAttrD "year" (.str "N/A")
  let rel ← mv.getAttrD "inCinemas" (.str "TBA")
  let status ← mv.getItem "status"
  pure ("- " ++ pyStr title ++ " (" ++ pyStr year ++ ")\n" ++
        "  Release: " ++ pyStr rel ++ "\n" ++
        "  Status: " ++ pyStr status ++ "\n\n")

/-- get_radarr_calendar, symmetric to `get_sonarr_calendar`. -/
def get_radarr_calendar (c : APIClient) (net : Net) (nowUsec : Int) (days : JValue) :
    Except PyError String × List HttpRequest :=
  match asDays days with
  | .error e => (.error e, [])
  | .ok d =>
    let endUsec := nowUsec + d * 86400000000
    let fetched := c.get net "calendar"
      [("start", isoformatNaive nowUsec), ("end", isoformatNaive endUsec)]
    (match fetched.1 with
     | .error e => .error e
     | .ok calJ => do
        if !truthy calJ then
          pure ("No movies releasing in the next " ++ pyStr days ++ " days.")
        else do
          let movies ← asList calJ
          let body ← renderEntriesE renderCalendarMovie1 movies
          pure ("Upcoming movie releases (next " ++ pyStr days ++ " days):\n\n" ++ body),
     fetched.2)

/-- Per-volume line of the status operations: free and total space converted
from bytes to gigabytes (divide by 1024 cubed), two decimal places. -/
def renderDisk1 (disk : JValue) : Except PyError String := do
  let path ← disk.getItem "path"
  let free ← asNum (← disk.getItem "freeSpace")
  let total ← asNum (← disk.getItem "totalSpace")
  pure ("- " ++ pyStr path ++ ": " ++ fixed2Int free (1024 * 1024 * 1024) ++
        " GB free of " ++ fixed2Int total (1024 * 1024 * 1024) ++ " GB\n")

/-- Body shared by the two status operations after both fetches succeed. -/
def renderStatusBody (label : String) (status : JValue) (disks : List JValue) :
    Except PyError String := do
  let version ← status.getItem "version"
  let osName ← status.getAttrD "osName" (.str "Unknown")
  let runtime ← status.getAttrD "runtimeName" (.str "Unknown")
  let diskBody ← renderEntriesE renderDisk1 disks
  pure (label ++ " System Status:\n\n" ++
        "Version: " ++ pyStr version ++ "\n" ++
        "OS: " ++ pyStr osName ++ "\n" ++
        "Runtime: " ++ pyStr runtime ++ "\n\n" ++
        "Disk Space:\n" ++ diskBody)

/-- get_sonarr_status: two sequential GETs (system/status, diskspace). -/
def get_sonarr_status (c : APIClient) (net : Net) :
    Except PyError String × List HttpRequest :=
  let f1 := c.get net "system/status" []
  match f1.1 with
  | .error e => (.error e, f1.2)
  | .ok status =>
    let f2 := c.get net "diskspace" []
    (match f2.1 with
     | .error e => .error e
     | .ok disksJ => do
        let disks ← asList disksJ
        renderStatusBody "Sonarr" status disks,
     f1.2 ++ f2.2)

/-- get_radarr_status, symmetric to `get_sonarr_status`. -/
def get_radarr_status (c : APIClient) (net : Net) :
    Except PyError String × List HttpRequest :=
  let f1 := c.get net "system/status" []
  match f1.1 with
  | .error e => (.error e, f1.2)
  | .ok status =>
    let f2 := c.get net "diskspace" []
    (match f2.1 with
     | .error e => .error e
     | .ok disksJ => do
        let disks ← asList disksJ
        renderStatusBody "Radarr" status disks,
     f1.2 ++ f2.2)

/-- Per-item block of `get_sonarr_queue`: series title, zero-padded season
and episode, status, and remaining size converted from bytes to megabytes
(divide by 1024 squared), two decimal places. -/
def renderSonarrQueueItem1 (item : JValue) : Except PyError String := do
  let seriesJ ← item.getItem "series"
  let title ← seriesJ.getItem "title"
  let episodeJ ← item.getItem "episode"
  let sn ← asFmtInt (← episodeJ.getItem "seasonNumber")
  let en ← asFmtInt (← episodeJ.getItem "episodeNumber")
  let status ← item.getItem "status"
  let sizeleft ← asNum (← item.getAttrD "sizeleft" (.num 0))
  pure ("- " ++ pyStr title ++ " - S" ++ fmt02 sn ++ "E" ++ fmt02 en ++ "\n" ++
        "  Status: " ++ pyStr status ++ "\n" ++
        "  Progress: " ++ fixed2Int sizeleft (1024 * 1024) ++ " MB remaining\n\n")

/-- get_sonarr_queue: `if not queue.get("records")` yields the fixed empty
sentence; otherwise render one block per record. -/
def get_sonarr_queue (c : APIClient) (net : Net) :
    Except PyError String × List HttpRequest :=
  let fetched := c.get net "queue" []
  (match fetched.1 with
   | .error e => .error e
   | .ok q => do
      let records ← q.getAttrD "records" .null
      if !truthy records then
        pure "Download queue is empty."
      else do
        let items ← asList (← q.getItem "records")
        let body ← renderEntriesE renderSonarrQueueItem1 items
        pure ("Current Download Queue:\n\n" ++ body),
   fetched.2)

/-- Per-item block of `get_radarr_queue`: movie title, year, status, and
remaining size in megabytes to two decimal places. -/
def renderRadarrQueueItem1 (item : JValue) : Except PyError String := do
  let movieJ ← item.getItem "movie"
  let title ← movieJ.getItem "title"
  let year ← movieJ.getAttrD "year" (.str "N/A")
  let status ← item.getItem "status"
  let sizeleft ← asNum (← item.getAttrD "sizeleft" (.num 0))
  pure ("- " ++ pyStr title ++ " (" ++ pyStr year ++ ")\n" ++
        "  Status: " ++ pyStr status ++ "\n" ++
        "  Progress: " ++ fixed2Int sizeleft (1024 * 1024) ++ " MB remaining\n\n")

/-- get_radarr_queue, symmetric to `get_sonarr_queue`. -/
def get_radarr_queue (c : APIClient) (net : Net) :
    Except PyError String × List HttpRequest :=
  let fetched := c.get net "queue" []
  (match fetched.1 with
   | .error e => .error e
   | .ok q => do
      let records ← q.getAttrD "records" .null
      if !truthy records then
        pure "Download queue is empty."
      else do
        let items ← asList (← q.getItem "records")
        let body ← renderEntriesE renderRadarrQueueItem1 items
        pure ("Current Download Queue:\n\n" ++ body),
   fetched.2)

/-- refresh_sonarr_series: one POST to `command` with a scalar `seriesId`,
then a fixed confirmation embedding the id. -/
def refresh_sonarr_series (c : APIClient) (net : Net) (series_id : JValue) :
    Except PyError String × List HttpRequest :=
  let posted := c.post net "command" (.obj [("name", .str "RefreshSeries"), ("seriesId", series_id)])
  (match posted.1 with
   | .error e => .error e
   | .ok _ => .ok ("Refresh triggered for series ID " ++ pyStr series_id),
   posted.2)

/-- search_sonarr_episodes: one POST to `command` with a scalar `seriesId`. -/
def search_sonarr_episodes (c : APIClient) (net : Net) (series_id : JValue) :
    Except PyError String × List HttpRequest :=
  let posted := c.post net "command" (.obj [("name", .str "SeriesSearch"), ("seriesId", series_id)])
  (match posted.1 with
   | .error e => .error e
   | .ok _ => .ok ("Episode search triggered for series ID " ++ pyStr series_id),
   posted.2)

/-- refresh_radarr_movie: one POST to `command` with a one-element
`movieIds` list. -/
def refresh_radarr_movie (c : APIClient) (net : Net) (movie_id : JValue) :
    Except PyError String × List HttpRequest :=
  let posted := c.post net "command" (.obj [("name", .str "RefreshMovie"), ("movieIds", .arr [movie_id])])
  (match posted.1 with
   | .error e => .error e
   | .ok _ => .ok ("Refresh triggered for movie ID " ++ pyStr movie_id),
   posted.2)

/-- search_radarr_movie: one POST to `command` with a one-element
`movieIds` list. -/
def search_radarr_movie (c : APIClient) (net : Net) (movie_id : JValue) :
    Except PyError String × List HttpRequest :=
  let posted := c.post net "command" (.obj [("name", .str "MoviesSearch"), ("movieIds", .arr [movie_id])])
  (match posted.1 with
   | .error e => .error e
   | .ok _ => .ok ("Search triggered for movie ID " ++ pyStr movie_id),
   posted.2)

/-- MCP TextContent(type="text", text=...). -/
structure TextContent where
  type : String
  text : String
deriving DecidableEq

/-- Python `arguments[k]` on the tool argument bag. -/
def argsGet (args : List (String × JValue)) (k : String) : Except PyError JValue :=
  dictGetItem args k

/-- Python `arguments.get(k, default)` on the tool argument bag. -/
def argsGetD (args : List (String × JValue)) (k : String) (dflt : JValue) : JValue :=
  (lookupField args k).getD dflt

/-- Lift a facade result to the `[TextContent(...)]` of a successful tool
call, keeping its request trace. -/
def liftOp (r : Except PyError String × List HttpRequest) :
    Except PyError (List TextContent) × List HttpRequest :=
  (match r.1 with
   | .ok s => .ok [⟨"text", s⟩]
   | .error e => .error e,
   r.2)

/-- Guard shared by every tool branch: the fixed not-configured text when
the backend has no client, otherwise the facade call. -/
def toolGuard (cli : Option APIClient) (msg : String)
    (body : APIClient → Except PyError String × List HttpRequest) :
    Except PyError (List TextContent) × List HttpRequest :=
  match cli with
  | none => (.ok [⟨"text", msg⟩], [])
  | some c => liftOp (body c)

/-- Guard for branches that read a required argument with `arguments[...]`
after the client check: a missing key propagates as KeyError with no
facade call. -/
def toolGuardArg (cli : Option APIClient) (msg : String)
    (argv : Except PyError JValue)
    (body : APIClient → JValue → Except PyError String × List HttpRequest) :
    Except PyError (List TextContent) × List HttpRequest :=
  match cli with
  | none => (.ok [⟨"text", msg⟩], [])
  | some c =>
    match argv with
    | .error e => (.error e, [])
    | .ok v => liftOp (body c v)

/-- Body of the `call_tool` handler before its catch-all `except`:
per-tool dispatch with the not-configured guards and the
`arguments[...]` reads of required arguments. -/
def callToolRaw (cfg : Config) (w : World) (name : String)
    (args : List (String × JValue)) :
    Except PyError (List TextContent) × List HttpRequest :=
  if name == "sonarr_get_recent_series" then
    toolGuard (mkSonarrClient cfg) "Sonarr is not configured" fun c =>
      get_recent_series c w.sonarrNet w.nowUsec (argsGetD args "days" (.num 7))
  else if name == "sonarr_get_calendar" then
    toolGuard (mkSonarrClient cfg) "Sonarr is not configured" fun c =>
      get_sonarr_calendar c w.sonarrNet w.nowUsec (argsGetD args "days" (.num 7))
  else if name == "sonarr_search_series" then
    toolGuardArg (mkSonarrClient cfg) "Sonarr is not configured" (argsGet args "query") fun c q =>
      search_sonarr_series c w.sonarrNet q
  else if name == "sonarr_get_system_status" then
    toolGuard (mkSonarrClient cfg) "Sonarr is not configured" fun c =>
      get_sonarr_status c w.sonarrNet
  else if name == "sonarr_get_queue" then
    toolGuard (mkSonarrClient cfg) "Sonarr is not configured" fun c =>
      get_sonarr_queue c w.sonarrNet
  else if name == "sonarr_refresh_series" then
    toolGuardArg (mkSonarrClient cfg) "Sonarr is not configured" (argsGet args "series_id") fun c sid =>
      refresh_sonarr_series c w.sonarrNet sid
  else if name == "sonarr_search_episodes" then
    toolGuardArg (mkSonarrClient cfg) "Sonarr is not configured" (argsGet args "series_id") fun c sid =>
      search_sonarr_episodes c w.sonarrNet sid
  else if name == "radarr_get_recent_movies" then
    toolGuard (mkRadarrClient cfg) "Radarr is not configured" fun c =>
      get_recent_movies c w.radarrNet w.nowUsec (argsGetD args "days" (.num 7))
  else if name == "radarr_get_calendar" then
    toolGuard (mkRadarrClient cfg) "Radarr is not configured" fun c =>
      get_radarr_calendar c w.radarrNet w.nowUsec (argsGetD args "days" (.num 30))
  else if name == "radarr_search_movies" then
    toolGuardArg (mkRadarrClient cfg) "Radarr is not configured" (argsGet args "query") fun c q =>
      search_radarr_movies c w.radarrNet q
  else if name == "radarr_get_system_status" then
    toolGuard (mkRadarrClient cfg) "Radarr is not configured" fun c =>
      get_radarr_status c w.radarrNet
  else if name == "radarr_get_queue" then
    toolGuard (mkRadarrClient cfg) "Radarr is not configured" fun c =>
      get_radarr_queue c w.radarrNet
  else if name == "radarr_refresh_movie" then
    toolGuardArg (mkRadarrClient cfg) "Radarr is not configured" (argsGet args "movie_id") fun c mid =>
      refresh_radarr_movie c w.radarrNet mid
  else if name == "radarr_search_movie" then
    toolGuardArg (mkRadarrClient cfg) "Radarr is not configured" (argsGet args "movie_id") fun c mid =>
      search_radarr_movie c w.radarrNet mid
  else
    (.ok [⟨"text", "Unknown tool: " ++ name⟩], [])

/-- The full `call_tool` handler: any exception from the dispatch is caught
and rendered as an "Error: ..." text payload. -/
def call_tool (cfg : Config) (w : World) (name : String)
    (args : List (String × JValue)) : List TextContent × List HttpRequest :=
  match callToolRaw cfg w name args with
  | (.ok r, tr) => (r, tr)
  | (.error e, tr) => ([⟨"text", "Error: " ++ e.toText⟩], tr)

def sonarrToolNames : List String :=
  ["sonarr_get_recent_series", "sonarr_get_calendar", "sonarr_search_series",
   "sonarr_get_system_status", "sonarr_get_queue", "sonarr_refresh_series",
   "sonarr_search_episodes"]

def radarrToolNames : List String :=
  ["radarr_get_recent_movies", "radarr_get_calendar", "radarr_search_movies",
   "radarr_get_system_status", "radarr_get_queue", "radarr_refresh_movie",
   "radarr_search_movie"]

/-- A Starlette JSONResponse: status code and JSON body. -/
structure JsonResponse where
  status : Nat
  body : JValue

def errBody (m : String) : JValue := .obj [("error", .str m)]

def resultBody (t : String) : JValue := .obj [("result", .str t)]

/-- Readiness endpoint: 503 before startup completes, otherwise the two
configured flags, read off the optional per-backend clients. -/
def readiness (inst : Option Config) : JsonResponse :=
  match inst with
  | none => ⟨503, .obj [("status", .str "not ready")]⟩
  | some cfg =>
      ⟨200, .obj [("status", .str "ready"),
                  ("sonarr_configured", .bool (mkSonarrClient cfg).isSome),
                  ("radarr_configured", .bool (mkRadarrClient cfg).isSome)]⟩

/-- Python `int(s)` on a query-parameter string: optional surrounding
whitespace, optional sign, decimal digits; ValueError otherwise (digit-group
underscores are not modelled). -/
def pyIntOfString (s : String) : Except PyError Int :=
  let cs := ((s.data.dropWhile Char.isWhitespace).reverse.dropWhile Char.isWhitespace).reverse
  let split : Bool × List Char :=
    match cs with
    | c :: rest =>
        if c == '-' then (true, rest)
        else if c == '+' then (false, rest)
        else (false, cs)
    | [] => (false, [])
  if split.2.isEmpty || !split.2.all Char.isDigit then
    .error (.valueError ("invalid literal for int() with base 10: \x27" ++ s ++ "\x27"))
  else
    let n : Nat := split.2.foldl (fun a c => a * 10 + (c.toNat - 48)) 0
    .ok (if split.1 then -(n : Int) else (n : Int))

def lookupStr : List (String × String) → String → Option String
  | [], _ => none
  | (k, v) :: rest, key => if k == key then some v else lookupStr rest key

/-- Shared `int(request.query_params.get("days", dflt))` of the recent and
calendar routes; the conversion sits outside the handler's try block. -/
def parseDaysParam (params : List (String × String)) (dflt : Int) : Except PyError Int :=
  match lookupStr params "days" with
  | none => .ok dflt
  | some s => pyIntOfString s

/-- The try/except tail shared by every API route: 200 with a result
envelope on success, 500 with an error envelope on any exception. -/
def wrapResult (r : Except PyError String) : JsonResponse :=
  match r with
  | .ok s => ⟨200, resultBody s⟩
  | .error e => ⟨500, errBody e.toText⟩

/-- Clients as seen by the sonarr routes (`mcp_instance` may be None). -/
def instSonarr : Option Config → Option APIClient
  | none => none
  | some cfg => mkSonarrClient cfg

def instRadarr : Option Config → Option APIClient
  | none => none
  | some cfg => mkRadarrClient cfg

/-- A route handler's outcome: `.error` is an exception escaping the handler
(to be turned into a framework-level plain 500, not the JSON envelope),
paired with the outbound requests attempted. -/
def RouteResult : Type := Except PyError JsonResponse × List HttpRequest

def routeSonarrRecent (inst : Option Config) (w : World)
    (params : List (String × String)) : RouteResult :=
  match instSonarr inst with
  | none => (.ok ⟨503, errBody "Sonarr not configured"⟩, [])
  | some c =>
    match parseDaysParam params 7 with
    | .error e => (.error e, [])
    | .ok d =>
      let r := get_recent_series c w.sonarrNet w.nowUsec (.num d)
      (.ok (wrapResult r.1), r.2)

def routeSonarrCalendar (inst : Option Config) (w : World)
    (params : List (String × String)) : RouteResult :=
  match instSonarr inst with
  | none => (.ok ⟨503, errBody "Sonarr not configured"⟩, [])
  | some c =>
    match parseDaysParam params 7 with
    | .error e => (.error e, [])
    | .ok d =>
      let r := get_sonarr_calendar c w.sonarrNet w.nowUsec (.num d)
      (.ok (wrapResult r.1), r.2)

def routeSonarrSearch (inst : Option Config) (w : World)
    (params : List (String × String)) : RouteResult :=
  match instSonarr inst with
  | none => (.ok ⟨503, errBody "Sonarr not configured"⟩, [])
  | some c =>
    let query := (lookupStr params "query").getD ""
    if query.isEmpty then (.ok ⟨400, errBody "query parameter required"⟩, [])
    else
      let r := search_sonarr_series c w.sonarrNet (.str query)
      (.ok (wrapResult r.1), r.2)

def routeSonarrStatus (inst : Option Config) (w : World)
    (_params : List (String × String)) : RouteResult :=
  match instSonarr inst with
  | none => (.ok ⟨503, errBody "Sonarr not configured"⟩, [])
  | some c =>
    let r := get_sonarr_status c w.sonarrNet
    (.ok (wrapResult r.1), r.2)

def routeSonarrQueue (inst : Option Config) (w : World)
    (_params : List (String × String)) : RouteResult :=
  match instSonarr inst with
  | none => (.ok ⟨503, errBody "Sonarr not configured"⟩, [])
  | some c =>
    let r := get_sonarr_queue c w.sonarrNet
    (.ok (wrapResult r.1), r.2)

def routeRadarrRecent (inst : Option Config) (w : World)
    (params : List (String × String)) : RouteResult :=
  match instRadarr inst with
  | none => (.ok ⟨503, errBody "Radarr not configured"⟩, [])
  | some c =>
    match parseDaysParam params 7 with
    | .error e => (.error e, [])
    | .ok d =>
      let r := get_recent_movies c w.radarrNet w.nowUsec (.num d)
      (.ok (wrapResult r.1), r.2)

def routeRadarrCalendar (inst : Option Config) (w : World)
    (params : List (String × String)) : RouteResult :=
  match instRadarr inst with
  | none => (.ok ⟨503, errBody "Radarr not configured"⟩, [])
  | some c =>
    match parseDaysParam params 30 with
    | .error e => (.error e, [])
    | .ok d =>
      let r := get_radarr_calendar c w.radarrNet w.nowUsec (.num d)
      (.ok (wrapResult r.1), r.2)

def routeRadarrSearch (inst : Option Config) (w : World)
    (params : List (String × String)) : RouteResult :=
  match instRadarr inst with
  | none => (.ok ⟨503, errBody "Radarr not configured"⟩, [])
  | some c =>
    let query := (lookupStr params "query").getD ""
    if query.isEmpty then (.ok ⟨400, errBody "query parameter required"⟩, [])
    else
      let r := search_radarr_movies c w.radarrNet (.str query)
      (.ok (wrapResult r.1), r.2)

def routeRadarrStatus (inst : Option Config) (w : World)
    (_params : List (String × String)) : RouteResult :=
  match instRadarr inst with
  | none => (.ok ⟨503, errBody "Radarr not configured"⟩, [])
  | some c =>
    let r := get_radarr_status c w.radarrNet
    (.ok (wrapResult r.1), r.2)

def routeRadarrQueue (inst : Option Config) (w : World)
    (_params : List (String × String)) : RouteResult :=
  match instRadarr inst with
  | none => (.ok ⟨503, errBody "Radarr not configured"⟩, [])
  | some c =>
    let r := get_radarr_queue c w.radarrNet
    (.ok (wrapResult r.1), r.2)

/-- The ten per-backend API routes of the HTTP transport. -/
inductive ApiRoute where
  | sRecent | sCalendar | sSearch | sStatus | sQueue
  | rRecent | rCalendar | rSearch | rStatus | rQueue
deriving DecidableEq

def routeHandler : ApiRoute → Option Config → World → List (String × String) → RouteResult
  | .sRecent => routeSonarrRecent
  | .sCalendar => routeSonarrCalendar
  | .sSearch => routeSonarrSearch
  | .sStatus => routeSonarrStatus
  | .sQueue => routeSonarrQueue
  | .rRecent => routeRadarrRecent
  | .rCalendar => routeRadarrCalendar
  | .rSearch => routeRadarrSearch
  | .rStatus => routeRadarrStatus
  | .rQueue => routeRadarrQueue

/-- The backend client a route guards on. -/
def routeCli (rt : ApiRoute) (inst : Option Config) : Option APIClient :=
  match rt with
  | .sRecent | .sCalendar | .sSearch | .sStatus | .sQueue => instSonarr inst
  | .rRecent | .rCalendar | .rSearch | .rStatus | .rQueue => instRadarr inst

/-- Routes that require a non-empty `query` parameter. -/
def needsQuery : ApiRoute → Bool
  | .sSearch => true
  | .rSearch => true
  | _ => false

def emptyQueryParam (params : List (String × String)) : Bool :=
  ((lookupStr params "query").getD "").isEmpty

/-
Concrete fixtures used by closed evaluations and witnesses.
-/

/-- Configuration with only Sonarr configured. -/
def cfgS : Config := ⟨"http://sonarr:8989", "key", "", ""⟩

/-- Configuration with both backends configured. -/
def cfgBoth : Config := ⟨"http://sonarr:8989", "key", "http://radarr:7878", "key2"⟩

def clientS : APIClient := ⟨"http://sonarr:8989", "key"⟩

def clientR : APIClient := ⟨"http://radarr:7878", "key2"⟩

/-- A network that is never successfully reached. -/
def netDown : Net := fun _ => .error (.transportError "connection refused")

def wStub : World := ⟨netDown, netDown, 0⟩

/-- A local clock instant used by the closed evaluations. -/
def now2026 : Int := civilUsec 2026 10 12 0 0 0 0

/-- A backend whose every response is 2xx with JSON body `v`. -/
def netConst (v : JValue) : Net := fun _ => .ok ⟨200, some v⟩

/-- C6: for every id, refresh and trigger-search issue exactly one POST to
the command endpoint - payload with a scalar seriesId for the series
backend, a single-element movieIds list for the movie backend - and return
the fixed confirmation embedding the id, whenever the backend answers 2xx
with a JSON body. -/
theorem c6_refresh_single_post (c : APIClient) (net : Net) (id : Int)
    (st : Nat) (body : JValue) (h2 : is2xx st = true)
    (hs1 : net (c.postReq "command" (.obj [("name", .str "RefreshSeries"), ("seriesId", .num id)])) = .ok ⟨st, some body⟩)
    (hs2 : net (c.postReq "command" (.obj [("name", .str "SeriesSearch"), ("seriesId", .num id)])) = .ok ⟨st, some body⟩)
    (hm1 : net (c.postReq "command" (.obj [("name", .str "RefreshMovie"), ("movieIds", .arr [.num id])])) = .ok ⟨st, some body⟩)
    (hm2 : net (c.postReq "command" (.obj [("name", .str "MoviesSearch"), ("movieIds", .arr [.num id])])) = .ok ⟨st, some body⟩) :
    refresh_sonarr_series c net (.num id) =
      (.ok ("Refresh triggered for series ID " ++ toString id),
       [c.postReq "command" (.obj [("name", .str "RefreshSeries"), ("seriesId", .num id)])]) ∧
    search_sonarr_episodes c net (.num id) =
      (.ok ("Episode search triggered for series ID " ++ toString id),
       [c.postReq "command" (.obj [("name", .str "SeriesSearch"), ("seriesId", .num id)])]) ∧
    refresh_radarr_movie c net (.num id) =
      (.ok ("Refresh triggered for movie ID " ++ toString id),
       [c.postReq "command" (.obj [("name", .str "RefreshMovie"), ("movieIds", .arr [.num id])])]) ∧
    search_radarr_movie c net (.num id) =
      (.ok ("Search triggered for movie ID " ++ toString id),
       [c.postReq "command" (.obj [("name", .str "MoviesSearch"), ("movieIds", .arr [.num id])])]) := by
  refine ⟨?_, ?_, ?_, ?_⟩ <;>
    simp [refresh_sonarr_series, search_sonarr_episodes, refresh_radarr_movie,
          search_radarr_movie, APIClient.post, hs1, hs2, hm1, hm2, h2, pyStr]

/-- Witness for C6 at id 42 against a backend answering 201 with `{}`. -/
def netCmdOk : Net := fun _ => .ok ⟨201, some (.obj [])⟩

theorem c6_refresh_single_post_witness :
    refresh_sonarr_series clientS netCmdOk (.num 42) =
      (.ok "Refresh triggered for series ID 42",
       [clientS.postReq "command" (.obj [("name", .str "RefreshSeries"), ("seriesId", .num 42)])]) :=
  (c6_refresh_single_post clientS netCmdOk 42 201 (.obj []) rfl rfl rfl rfl rfl).1

/-- C10: if the backend answers a refresh or trigger-search POST with 2xx
but an empty or non-JSON body, the operation fails with a decode error even
though the POST was already issued (the trace still records exactly one
POST), so the remote side effect happens despite the reported failure. -/
theorem c10_command_decode_failure_after_post (c : APIClient) (net : Net) (id : Int)
    (st : Nat) (h2 : is2xx st = true)
    (hs1 : net (c.postReq "command" (.obj [("name", .str "RefreshSeries"), ("seriesId", .num id)])) = .ok ⟨st, none⟩)
    (hs2 : net (c.postReq "command" (.obj [("name", .str "SeriesSearch"), ("seriesId", .num id)])) = .ok ⟨st, none⟩)
    (hm1 : net (c.postReq "command" (.obj [("name", .str "RefreshMovie"), ("movieIds", .arr [.num id])])) = .ok ⟨st, none⟩)
    (hm2 : net (c.postReq "command" (.obj [("name", .str "MoviesSearch"), ("movieIds", .arr [.num id])])) = .ok ⟨st, none⟩) :
    refresh_sonarr_series c net (.num id) =
      (.error (.jsonDecodeError "Expecting value: line 1 column 1 (char 0)"),
       [c.postReq "command" (.obj [("name", .str "RefreshSeries"), ("seriesId", .num id)])]) ∧
    search_sonarr_episodes c net (.num id) =
      (.error (.jsonDecodeError "Expecting value: line 1 column 1 (char 0)"),
       [c.postReq "command" (.obj [("name", .str "SeriesSearch"), ("seriesId", .num id)])]) ∧
    refresh_radarr_movie c net (.num id) =
      (.error (.jsonDecodeError "Expecting value: line 1 column 1 (char 0)"),
       [c.postReq "command" (.obj [("name", .str "RefreshMovie"), ("movieIds", .arr [.num id])])]) ∧
    search_radarr_movie c net (.num id) =
      (.error (.jsonDecodeError "Expecting value: line 1 column 1 (char 0)"),
       [c.postReq "command" (.obj [("name", .str "MoviesSearch"), ("movieIds", .arr [.num id])])]) := by
  refine ⟨?_, ?_, ?_, ?_⟩ <;>
    simp [refresh_sonarr_series, search_sonarr_episodes, refresh_radarr_movie,
          search_radarr_movie, APIClient.post, hs1, hs2, hm1, hm2, h2]

/-- Witness backend for C10: 200 OK with an empty (undecodable) body. -/
def netCmdEmptyBody : Net := fun _ => .ok ⟨200, none⟩

theorem c10_command_decode_failure_after_post_witness :
    refresh_radarr_movie clientR netCmdEmptyBody (.num 7) =
      (.error (.jsonDecodeError "Expecting value: line 1 column 1 (char 0)"),
       [clientR.postReq "command" (.obj [("name", .str "RefreshMovie"), ("movieIds", .arr [.num 7])])]) :=
  (c10_command_decode_failure_after_post clientR netCmdEmptyBody 7 200 rfl rfl rfl rfl rfl).2.2.1

/-- A Sonarr queue record with remaining size `n` bytes. -/
def sonarrQueueItem (n : Int) : JValue :=
  .obj [("series", .obj [("title", .str "Show")]),
        ("episode", .obj [("seasonNumber", .num 1), ("episodeNumber", .num 2)]),
        ("status", .str "downloading"), ("sizeleft", .num n)]

/-- A Radarr queue record with remaining size `n` bytes. -/
def radarrQueueItem (n : Int) : JValue :=
  .obj [("movie", .obj [("title", .str "Film"), ("year", .num 2001)]),
        ("status", .str "downloading"), ("sizeleft", .num n)]

/-- C7: queue() renders each record's remaining size as
`sizeleft / 1024 squared` to two decimal places, and an empty or absent
record list yields exactly "Download queue is empty." on both backends. -/
theorem c7_queue_conversion_and_empty (c : APIClient) (net : Net)
    (fs : List (String × JValue))
    (hq : net (c.getReq "queue" []) = .ok ⟨200, some (.obj fs)⟩)
    (hrec : lookupField fs "records" = none ∨ lookupField fs "records" = some (.arr [])) :
    (get_sonarr_queue c net = (.ok "Download queue is empty.", [c.getReq "queue" []]) ∧
     get_radarr_queue c net = (.ok "Download queue is empty.", [c.getReq "queue" []])) ∧
    (∀ n : Int,
      renderSonarrQueueItem1 (sonarrQueueItem n) =
        .ok ("- Show - S01E02\n  Status: downloading\n  Progress: " ++
             fixed2Int n (1024 * 1024) ++ " MB remaining\n\n") ∧
      renderRadarrQueueItem1 (radarrQueueItem n) =
        .ok ("- Film (2001)\n  Status: downloading\n  Progress: " ++
             fixed2Int n (1024 * 1024) ++ " MB remaining\n\n")) := by
  constructor
  · rcases hrec with h | h <;>
      constructor <;>
      simp [get_sonarr_queue, get_radarr_queue, APIClient.get, hq, is2xx,
            JValue.getAttrD, h, truthy] <;> rfl
  · intro n
    exact ⟨rfl, rfl⟩

/-- Witness backend for C7: a queue object with an empty record list. -/
def netEmptyQueue : Net := fun _ => .ok ⟨200, some (.obj [("records", .arr [])])⟩

theorem c7_queue_conversion_and_empty_witness :
    get_sonarr_queue clientS netEmptyQueue =
      (.ok "Download queue is empty.", [clientS.getReq "queue" []]) ∧
    renderSonarrQueueItem1 (sonarrQueueItem 3355443) =
      .ok ("- Show - S01E02\n  Status: downloading\n  Progress: " ++
           fixed2Int 3355443 (1024 * 1024) ++ " MB remaining\n\n") :=
  ⟨((c7_queue_conversion_and_empty clientS netEmptyQueue [("records", .arr [])]
      rfl (Or.inr rfl)).1).1,
   ((c7_queue_conversion_and_empty clientS netEmptyQueue [("records", .arr [])]
      rfl (Or.inr rfl)).2 3355443).1⟩

/-- C4: when the required argument of a dispatched operation is missing from
the argument bag, the dispatch raises KeyError - an error kind distinct from
the remote and transport kinds - before the facade runs, with no network
request attempted, and the handler renders it as the quoted-key error text. -/
theorem c4_missing_required_argument (cfg : Config) (w : World)
    (args : List (String × JValue)) :
    ((mkSonarrClient cfg).isSome = true →
      (lookupField args "query" = none →
        callToolRaw cfg w "sonarr_search_series" args = (.error (.keyError "query"), []) ∧
        call_tool cfg w "sonarr_search_series" args = ([⟨"text", "Error: \x27query\x27"⟩], [])) ∧
      (lookupField args "series_id" = none →
        (callToolRaw cfg w "sonarr_refresh_series" args = (.error (.keyError "series_id"), []) ∧
         call_tool cfg w "sonarr_refresh_series" args = ([⟨"text", "Error: \x27series_id\x27"⟩], [])) ∧
        (callToolRaw cfg w "sonarr_search_episodes" args = (.error (.keyError "series_id"), []) ∧
         call_tool cfg w "sonarr_search_episodes" args = ([⟨"text", "Error: \x27series_id\x27"⟩], [])))) ∧
    ((mkRadarrClient cfg).isSome = true →
      (lookupField args "query" = none →
        callToolRaw cfg w "radarr_search_movies" args = (.error (.keyError "query"), []) ∧
        call_tool cfg w "radarr_search_movies" args = ([⟨"text", "Error: \x27query\x27"⟩], [])) ∧
      (lookupField args "movie_id" = none →
        (callToolRaw cfg w "radarr_refresh_movie" args = (.error (.keyError "movie_id"), []) ∧
         call_tool cfg w "radarr_refresh_movie" args = ([⟨"text", "Error: \x27movie_id\x27"⟩], [])) ∧
        (callToolRaw cfg w "radarr_search_movie" args = (.error (.keyError "movie_id"), []) ∧
         call_tool cfg w "radarr_search_movie" args = ([⟨"text", "Error: \x27movie_id\x27"⟩], [])))) := by
  constructor
  · intro hs
    rw [Option.isSome_iff_exists] at hs
    obtain ⟨c, hc⟩ := hs
    refine ⟨fun hquery => ?_, fun hid => ⟨?_, ?_⟩⟩ <;>
      simp_all [callToolRaw, call_tool, toolGuardArg, argsGet, dictGetItem, PyError.toText]
  · intro hr
    rw [Option.isSome_iff_exists] at hr
    obtain ⟨c, hc⟩ := hr
    refine ⟨fun hquery => ?_, fun hid => ⟨?_, ?_⟩⟩ <;>
      simp_all [callToolRaw, call_tool, toolGuardArg, argsGet, dictGetItem, PyError.toText]

theorem c4_missing_required_argument_witness :
    call_tool cfgBoth wStub "radarr_refresh_movie" [] =
      ([⟨"text", "Error: \x27movie_id\x27"⟩], []) :=
  ((((c4_missing_required_argument cfgBoth wStub []).2 rfl).2 rfl).1).2

/-- C2: a backend with an empty URL or API key never yields a client, every
tool of that backend is answered with the fixed "not configured" text
without any network request, and the readiness endpoint reports the
backend's configured flag as false. -/
theorem emptyString_isEmpty : "".isEmpty = true := rfl

theorem c2_unconfigured_backend_rejected (cfg : Config) (w : World)
    (args : List (String × JValue)) :
    ((cfg.sonarr_url = "" ∨ cfg.sonarr_api_key = "") →
      mkSonarrClient cfg = none ∧
      (∀ name ∈ sonarrToolNames,
        call_tool cfg w name args = ([⟨"text", "Sonarr is not configured"⟩], [])) ∧
      readiness (some cfg) =
        ⟨200, .obj [("status", .str "ready"),
                    ("sonarr_configured", .bool false),
                    ("radarr_configured", .bool (mkRadarrClient cfg).isSome)]⟩) ∧
    ((cfg.radarr_url = "" ∨ cfg.radarr_api_key = "") →
      mkRadarrClient cfg = none ∧
      (∀ name ∈ radarrToolNames,
        call_tool cfg w name args = ([⟨"text", "Radarr is not configured"⟩], [])) ∧
      readiness (some cfg) =
        ⟨200, .obj [("status", .str "ready"),
                    ("sonarr_configured", .bool (mkSonarrClient cfg).isSome),
                    ("radarr_configured", .bool false)]⟩) := by
  constructor
  · intro h
    have hmk : mkSonarrClient cfg = none := by
      rcases h with h | h <;> simp [mkSonarrClient, Config.validate_service, h, emptyString_isEmpty]
    refine ⟨hmk, ?_, ?_⟩
    · intro name hname
      simp only [sonarrToolNames, List.mem_cons, List.not_mem_nil, or_false] at hname
      rcases hname with rfl | rfl | rfl | rfl | rfl | rfl | rfl <;>
        simp [call_tool, callToolRaw, toolGuard, toolGuardArg, hmk]
    · simp [readiness, hmk]
  · intro h
    have hmk : mkRadarrClient cfg = none := by
      rcases h with h | h <;> simp [mkRadarrClient, Config.validate_service, h, emptyString_isEmpty]
    refine ⟨hmk, ?_, ?_⟩
    · intro name hname
      simp only [radarrToolNames, List.mem_cons, List.not_mem_nil, or_false] at hname
      rcases hname with rfl | rfl | rfl | rfl | rfl | rfl | rfl <;>
        simp [call_tool, callToolRaw, toolGuard, toolGuardArg, hmk]
    · simp [readiness, hmk]

theorem c2_unconfigured_backend_rejected_witness :
    call_tool cfgS wStub "radarr_get_queue" [] =
      ([⟨"text", "Radarr is not configured"⟩], []) :=
  (((c2_unconfigured_backend_rejected cfgS wStub []).2 (Or.inl rfl)).2.1
    "radarr_get_queue" (by decide))

theorem liftOp_ok_singleton (r : Except PyError String × List HttpRequest)
    (l : List TextContent) (tr : List HttpRequest)
    (h : liftOp r = (.ok l, tr)) : ∃ s, l = [⟨"text", s⟩] := by
  rcases r with ⟨r1, r2⟩
  cases r1 with
  | ok s =>
      simp only [liftOp, Prod.mk.injEq, Except.ok.injEq] at h
      exact ⟨s, h.1.symm⟩
  | error e =>
      simp [liftOp] at h

theorem toolGuard_ok_singleton (cli : Option APIClient) (msg : String)
    (body : APIClient → Except PyError String × List HttpRequest)
    (l : List TextContent) (tr : List HttpRequest)
    (h : toolGuard cli msg body = (.ok l, tr)) : ∃ s, l = [⟨"text", s⟩] := by
  cases cli with
  | none =>
      simp only [toolGuard, Prod.mk.injEq, Except.ok.injEq] at h
      exact ⟨msg, h.1.symm⟩
  | some c => exact liftOp_ok_singleton _ _ _ h

theorem toolGuardArg_ok_singleton (cli : Option APIClient) (msg : String)
    (argv : Except PyError JValue)
    (body : APIClient → JValue → Except PyError String × List HttpRequest)
    (l : List TextContent) (tr : List HttpRequest)
    (h : toolGuardArg cli msg argv body = (.ok l, tr)) : ∃ s, l = [⟨"text", s⟩] := by
  cases cli with
  | none =>
      simp only [toolGuardArg, Prod.mk.injEq, Except.ok.injEq] at h
      exact ⟨msg, h.1.symm⟩
  | some c =>
      cases argv with
      | error e => simp [toolGuardArg] at h
      | ok v => exact liftOp_ok_singleton _ _ _ h

theorem callToolRaw_ok_singleton (cfg : Config) (w : World) (name : String)
    (args : List (String × JValue)) (l : List TextContent) (tr : List HttpRequest)
    (h : callToolRaw cfg w name args = (.ok l, tr)) : ∃ s, l = [⟨"text", s⟩] := by
  unfold callToolRaw at h
  by_cases h0 : (name == "sonarr_get_recent_series") = true
  · rw [if_pos h0] at h
    exact toolGuard_ok_singleton _ _ _ _ _ h
  rw [if_neg h0] at h
  by_cases h1 : (name == "sonarr_get_calendar") = true
  · rw [if_pos h1] at h
    exact toolGuard_ok_singleton _ _ _ _ _ h
  rw [if_neg h1] at h
  by_cases h2 : (name == "sonarr_search_series") = true
  · rw [if_pos h2] at h
    exact toolGuardArg_ok_singleton _ _ _ _ _ _ h
  rw [if_neg h2] at h
  by_cases h3 : (name == "sonarr_get_system_status") = true
  · rw [if_pos h3] at h
    exact toolGuard_ok_singleton _ _ _ _ _ h
  rw [if_neg h3] at h
  by_cases h4 : (name == "sonarr_get_queue") = true
  · rw [if_pos h4] at h
    exact toolGuard_ok_singleton _ _ _ _ _ h
  rw [if_neg h4] at h
  by_cases h5 : (name == "sonarr_refresh_series") = true
  · rw [if_pos h5] at h
    exact toolGuardArg_ok_singleton _ _ _ _ _ _ h
  rw [if_neg h5] at h
  by_cases h6 : (name == "sonarr_search_episodes") = true
  · rw [if_pos h6] at h
    exact toolGuardArg_ok_singleton _ _ _ _ _ _ h
  rw [if_neg h6] at h
  by_cases h7 : (name == "radarr_get_recent_movies") = true
  · rw [if_pos h7] at h
    exact toolGuard_ok_singleton _ _ _ _ _ h
  rw [if_neg h7] at h
  by_cases h8 : (name == "radarr_get_calendar") = true
  · rw [if_pos h8] at h
    exact toolGuard_ok_singleton _ _ _ _ _ h
  rw [if_neg h8] at h
  by_cases h9 : (name == "radarr_search_movies") = true
  · rw [if_pos h9] at h
    exact toolGuardArg_ok_singleton _ _ _ _ _ _ h
  rw [if_neg h9] at h
  by_cases h10 : (name == "radarr_get_system_status") = true
  · rw [if_pos h10] at h
    exact toolGuard_ok_singleton _ _ _ _ _ h
  rw [if_neg h10] at h
  by_cases h11 : (name == "radarr_get_queue") = true
  · rw [if_pos h11] at h
    exact toolGuard_ok_singleton _ _ _ _ _ h
  rw [if_neg h11] at h
  by_cases h12 : (name == "radarr_refresh_movie") = true
  · rw [if_pos h12] at h
    exact toolGuardArg_ok_singleton _ _ _ _ _ _ h
  rw [if_neg h12] at h
  by_cases h13 : (name == "radarr_search_movie") = true
  · rw [if_pos h13] at h
    exact toolGuardArg_ok_singleton _ _ _ _ _ _ h
  rw [if_neg h13] at h
  simp only [Prod.mk.injEq, Except.ok.injEq] at h
  exact ⟨_, h.1.symm⟩

/-- C9: the tool-invocation handler is total on domain errors - for every
tool name and argument bag it returns a single text payload, and any
exception raised by the dispatched operation is caught and rendered as an
"Error: ..." text. -/
theorem c9_call_tool_total (cfg : Config) (w : World) (name : String)
    (args : List (String × JValue)) :
    (∃ s, (call_tool cfg w name args).1 = [⟨"text", s⟩]) ∧
    (∀ e tr, callToolRaw cfg w name args = (.error e, tr) →
       call_tool cfg w name args = ([⟨"text", "Error: " ++ e.toText⟩], tr)) := by
  constructor
  · rcases hraw : callToolRaw cfg w name args with ⟨r, tr⟩
    cases r with
    | ok l =>
        obtain ⟨s, rfl⟩ := callToolRaw_ok_singleton _ _ _ _ _ _ hraw
        exact ⟨s, by simp [call_tool, hraw]⟩
    | error e =>
        exact ⟨"Error: " ++ e.toText, by simp [call_tool, hraw]⟩
  · intro e tr h
    simp [call_tool, h]

theorem c9_call_tool_total_witness :
    call_tool cfgS wStub "sonarr_search_series" [] =
      ([⟨"text", "Error: \x27query\x27"⟩], []) :=
  (c9_call_tool_total cfgS wStub "sonarr_search_series" []).2
    (.keyError "query") [] rfl

/-- A series whose `added` carries the trailing Z that real backends emit. -/
def seriesWithZ : List JValue :=
  [.obj [("title", .str "A"), ("year", .num 2099),
         ("added", .str "2099-01-01T00:00:00Z"), ("status", .str "continuing"),
         ("network", .str "Netflix"), ("seasonCount", .num 3)]]

/-- The same series with a naive (offset-free) `added` string. -/
def seriesNaive : List JValue :=
  [.obj [("title", .str "A"), ("year", .num 2099),
         ("added", .str "2099-01-01T00:00:00"), ("status", .str "continuing"),
         ("network", .str "Netflix"), ("seasonCount", .num 3)]]

set_option maxHeartbeats 2000000 in
/-- C1: evaluating `recent` on a collection whose `added` ends in Z shows
the defect - the Z suffix is rewritten to +00:00 and parses to an aware
datetime, but the cutoff `datetime.now() - timedelta(days)` is naive, so the
strict comparison raises TypeError and the whole operation fails instead of
filtering; the identical instant written without Z is filtered and reported
as the claim describes. -/
theorem c1_recent_aware_added_raises :
    get_recent_series clientS (netConst (.arr seriesWithZ)) now2026 (.num 7) =
      (.error (.typeError "can\x27t compare offset-naive and offset-aware datetimes"),
       [clientS.getReq "series" []]) ∧
    get_recent_series clientS (netConst (.arr seriesNaive)) now2026 (.num 7) =
      (.ok ("Recently added series (last 7 days):\n\n" ++
            "- A (2099)\n  Added: 2099-01-01T00:00:00\n  Network: Netflix\n  Seasons: 3\n\n"),
       [clientS.getReq "series" []]) :=
  ⟨by rfl, by rfl⟩

/-- A kept series entity with no `network` field. -/
def seriesNoNetwork : List JValue :=
  [.obj [("title", .str "A"), ("year", .num 2099),
         ("added", .str "2099-01-01T00:00:00"), ("status", .str "continuing")]]

/-- A kept movie entity with no `studio` field. -/
def moviesNoStudio : List JValue :=
  [.obj [("title", .str "M"), ("year", .num 2099),
         ("added", .str "2099-01-01T00:00:00"), ("status", .str "released")]]

set_option maxHeartbeats 2000000 in
/-- C5: an entity kept by `recent` that is missing its secondary attribute
renders the line with "None", not "Unknown" - the `.get(..., "Unknown")`
in the rendering loop reads a dict whose key was already stored as None by
the build loop, so the default never fires; the operation still succeeds. -/
theorem c5_missing_secondary_renders_none :
    get_recent_series clientS (netConst (.arr seriesNoNetwork)) now2026 (.num 7) =
      (.ok ("Recently added series (last 7 days):\n\n" ++
            "- A (2099)\n  Added: 2099-01-01T00:00:00\n  Network: None\n  Seasons: 0\n\n"),
       [clientS.getReq "series" []]) ∧
    get_recent_movies clientR (netConst (.arr moviesNoStudio)) now2026 (.num 7) =
      (.ok ("Recently added movies (last 7 days):\n\n" ++
            "- M (2099)\n  Added: 2099-01-01T00:00:00\n  Studio: None\n\n"),
       [clientR.getReq "movie" []]) :=
  ⟨by rfl, by rfl⟩

/-- Title of a series object, for the specification-side restatement of the
search filter. -/
def titleOfSpec (s : JValue) : String :=
  match s with
  | .obj fs =>
    match lookupField fs "title" with
    | some (.str t) => t
    | _ => ""
  | _ => ""

/-- Specification-side match set: the entities whose title contains the
query case-insensitively, in original collection order. -/
def matchesSpec (q : String) (shows : List JValue) : List JValue :=
  shows.filter fun s => strContains (pyLower (titleOfSpec s)) (pyLower q)

/-- Shape under which the search loop cannot raise: an object with a string
title and with the always-read status and id fields present. -/
def searchShowOk (s : JValue) : Bool :=
  match s with
  | .obj fs =>
    (match lookupField fs "title" with
     | some (.str _) => true
     | _ => false) &&
    (lookupField fs "status").isSome && (lookupField fs "id").isSome
  | _ => false

def joinStrings : List String → String
  | [] => ""
  | x :: xs => x ++ joinStrings xs

/-- Specification-side rendering of one series match. -/
def renderSearchSeriesSpec1 (s : JValue) : String :=
  match s with
  | .obj fs =>
    "- " ++ titleOfSpec s ++ " (" ++ pyStr ((lookupField fs "year").getD (.str "N/A")) ++ ")\n" ++
    "  Status: " ++ pyStr ((lookupField fs "status").getD .null) ++ "\n" ++
    "  Seasons: " ++ pyStr ((lookupField fs "seasonCount").getD (.num 0)) ++ "\n" ++
    "  ID: " ++ pyStr ((lookupField fs "id").getD .null) ++ "\n\n"
  | _ => ""

/-- Specification-side result of the series search: the first ten matches in
original order, or the fixed not-found sentence. -/
def searchSeriesSpec (q : String) (shows : List JValue) : String :=
  let m := matchesSpec q shows
  if m.isEmpty then "No series found matching \x27" ++ q ++ "\x27."
  else "Series matching \x27" ++ q ++ "\x27:\n\n" ++
       joinStrings ((m.take 10).map renderSearchSeriesSpec1)

theorem all_of_sub {p : JValue → Bool} {l₁ l₂ : List JValue}
    (hsub : ∀ x ∈ l₁, x ∈ l₂) (h : l₂.all p = true) : l₁.all p = true := by
  rw [List.all_eq_true] at *
  exact fun x hx => h x (hsub x hx)

theorem searchFilterE_ok (q : String) :
    ∀ shows : List JValue, shows.all searchShowOk = true →
      searchFilterE (.str q) shows = .ok (matchesSpec q shows) := by
  intro shows
  induction shows with
  | nil => intro _; rfl
  | cons s rest ih =>
    intro h
    simp only [List.all_cons, Bool.and_eq_true] at h
    obtain ⟨hs, hrest⟩ := h
    cases s with
    | obj fs =>
        rcases ht : lookupField fs "title" with _ | tv
        · simp [searchShowOk, ht] at hs
        · cases tv with
          | str t =>
              simp only [searchFilterE, asStr, JValue.getItem, dictGetItem, ht,
                    ih hrest, matchesSpec, List.filter_cons, titleOfSpec]
              rfl
          | num n => simp [searchShowOk, ht] at hs
          | bool b => simp [searchShowOk, ht] at hs
          | null => simp [searchShowOk, ht] at hs
          | arr xs => simp [searchShowOk, ht] at hs
          | obj fs2 => simp [searchShowOk, ht] at hs
    | str s2 => simp [searchShowOk] at hs
    | num n => simp [searchShowOk] at hs
    | bool b => simp [searchShowOk] at hs
    | null => simp [searchShowOk] at hs
    | arr xs => simp [searchShowOk] at hs

theorem renderSearchSeriesE_ok :
    ∀ shows : List JValue, shows.all searchShowOk = true →
      renderEntriesE renderSearchSeries1 shows =
        .ok (joinStrings (shows.map renderSearchSeriesSpec1)) := by
  intro shows
  induction shows with
  | nil => intro _; rfl
  | cons s rest ih =>
    intro h
    simp only [List.all_cons, Bool.and_eq_true] at h
    obtain ⟨hs, hrest⟩ := h
    cases s with
    | obj fs =>
        rcases ht : lookupField fs "title" with _ | tv
        · simp [searchShowOk, ht] at hs
        · cases tv with
          | str t =>
              have hs' := hs
              simp only [searchShowOk, ht, Bool.and_eq_true] at hs'
              obtain ⟨⟨_, hstat⟩, hid⟩ := hs'
              rw [Option.isSome_iff_exists] at hstat hid
              obtain ⟨sv, hsv⟩ := hstat
              obtain ⟨iv, hiv⟩ := hid
              simp only [renderEntriesE, renderSearchSeries1, JValue.getItem,
                    JValue.getAttrD, dictGetItem, ht, hsv, hiv, ih hrest,
                    renderSearchSeriesSpec1, titleOfSpec, joinStrings, pyStr]
              rfl
          | num n => simp [searchShowOk, ht] at hs
          | bool b => simp [searchShowOk, ht] at hs
          | null => simp [searchShowOk, ht] at hs
          | arr xs => simp [searchShowOk, ht] at hs
          | obj fs2 => simp [searchShowOk, ht] at hs
    | str s2 => simp [searchShowOk] at hs
    | num n => simp [searchShowOk] at hs
    | bool b => simp [searchShowOk] at hs
    | null => simp [searchShowOk] at hs
    | arr xs => simp [searchShowOk] at hs

theorem except_bind_ok {α β : Type} (x : α) (f : α → Except PyError β) :
    (Except.ok x).bind f = f x := rfl

theorem call_tool_snd (cfg : Config) (w : World) (name : String)
    (args : List (String × JValue)) :
    (call_tool cfg w name args).2 = (callToolRaw cfg w name args).2 := by
  unfold call_tool
  rcases h : callToolRaw cfg w name args with ⟨r, tr⟩
  cases r <;> simp

/-- Two series fixtures whose titles both contain the empty string. -/
def seriesTwo : List JValue :=
  [.obj [("title", .str "Alpha"), ("year", .num 2001), ("status", .str "ended"),
         ("seasonCount", .num 2), ("id", .num 1)],
   .obj [("title", .str "Beta"), ("year", .num 2002), ("status", .str "continuing"),
         ("id", .num 2)]]

def wSearchTwo : World := ⟨netConst (.arr seriesTwo), netDown, now2026⟩

/-- C3 counterexample: on the structured transport an empty query is NOT
rejected - the dispatch performs the series fetch (one GET is attempted) and
returns every title as a match of the empty string, instead of failing with
a client error before any network call. -/
theorem c3_empty_query_counterexample :
    call_tool cfgS wSearchTwo "sonarr_search_series" [("query", .str "")] =
      ([⟨"text", "Series matching \x27\x27:\n\n" ++
          "- Alpha (2001)\n  Status: ended\n  Seasons: 2\n  ID: 1\n\n" ++
          "- Beta (2002)\n  Status: continuing\n  Seasons: 0\n  ID: 2\n\n"⟩],
       [clientS.getReq "series" []]) := by
  rfl

/-- C3 amended: search keeps exactly the case-insensitive substring matches
in original collection order and renders min(10, matches) of them; the empty
query is rejected with 400 before any network call on the HTTP transport
only - the structured transport forwards any present query string, empty
included, and attempts the fetch. -/
theorem c3_search_amended :
    (∀ (c : APIClient) (net : Net) (q : String) (shows : List JValue),
      net (c.getReq "series" []) = .ok ⟨200, some (.arr shows)⟩ →
      shows.all searchShowOk = true →
      search_sonarr_series c net (.str q) =
        (.ok (searchSeriesSpec q shows), [c.getReq "series" []]) ∧
      ((matchesSpec q shows).take 10).length = min 10 (matchesSpec q shows).length) ∧
    (∀ (cfg : Config) (cli : APIClient) (w : World) (params : List (String × String)),
      mkSonarrClient cfg = some cli →
      emptyQueryParam params = true →
      routeSonarrSearch (some cfg) w params =
        (.ok ⟨400, errBody "query parameter required"⟩, [])) ∧
    (∀ (cfg : Config) (cli : APIClient) (w : World)
       (args : List (String × JValue)) (qv : JValue),
      mkSonarrClient cfg = some cli →
      lookupField args "query" = some qv →
      (call_tool cfg w "sonarr_search_series" args).2 = [cli.getReq "series" []]) := by
  refine ⟨?_, ?_, ?_⟩
  · intro c net q shows hnet hok
    have hfetch : c.get net "series" [] = (.ok (.arr shows), [c.getReq "series" []]) := by
      simp only [APIClient.get]
      rw [hnet]
      rfl
    constructor
    · unfold search_sonarr_series
      rw [hfetch]
      show (Except.bind (searchFilterE (JValue.str q) shows) _, _) = _
      rw [searchFilterE_ok q shows hok, except_bind_ok]
      have htake : ((matchesSpec q shows).take 10).all searchShowOk = true :=
        all_of_sub
          (fun x hx => List.mem_filter.mp (List.mem_of_mem_take hx) |>.1)
          hok
      have hrender := renderSearchSeriesE_ok _ htake
      by_cases hm : (matchesSpec q shows).isEmpty
      · rw [if_pos hm]
        simp [searchSeriesSpec, hm, pyStr]
        rfl
      · rw [if_neg hm]
        rw [hrender]
        simp [searchSeriesSpec, hm, pyStr]
    · exact List.length_take 10 (matchesSpec q shows)
  · intro cfg cli w params hc hq
    have hi : instSonarr (some cfg) = some cli := by simp [instSonarr, hc]
    unfold routeSonarrSearch
    rw [hi]
    simp only [emptyQueryParam] at hq
    simp [hq]
  · intro cfg cli w args qv hc hq
    rw [call_tool_snd]
    simp [callToolRaw, toolGuardArg, hc, argsGet, dictGetItem, hq, liftOp,
          search_sonarr_series, APIClient.get]

theorem c3_search_amended_witness :
    search_sonarr_series clientS (netConst (.arr seriesTwo)) (.str "alp") =
      (.ok (searchSeriesSpec "alp" seriesTwo), [clientS.getReq "series" []]) :=
  (c3_search_amended.1 clientS (netConst (.arr seriesTwo)) "alp" seriesTwo rfl rfl).1

/-- C8 counterexample: a request whose `days` parameter is not an integer
literal makes the handler raise ValueError before its try block, so no
JSON error envelope of the documented shape is produced by the route. -/
theorem c8_malformed_days_counterexample :
    routeHandler .sRecent (some cfgS) wStub [("days", "abc")] =
      (.error (.valueError "invalid literal for int() with base 10: \x27abc\x27"), []) := by
  rfl

theorem wrapResult_shape (r : Except PyError String) :
    ((wrapResult r).status = 200 ∧ ∃ t, (wrapResult r).body = resultBody t) ∨
    ((wrapResult r).status = 500 ∧ ∃ m, (wrapResult r).body = errBody m) := by
  cases r with
  | ok s => exact Or.inl ⟨rfl, s, rfl⟩
  | error e => exact Or.inr ⟨rfl, e.toText, rfl⟩

theorem parseDaysParam_ok (params : List (String × String)) (dflt : Int)
    (hdays : ∀ s, lookupStr params "days" = some s → ∃ k, pyIntOfString s = .ok k) :
    ∃ k, parseDaysParam params dflt = .ok k := by
  unfold parseDaysParam
  cases hp : lookupStr params "days" with
  | none => exact ⟨dflt, rfl⟩
  | some s => exact hdays s hp

/-- C8 amended: provided that a supplied `days` parameter is a well-formed
integer literal, every per-backend route answers with the documented JSON
envelope - 503 with an error body when the backend is unconfigured, 400
with an error body when the required query parameter is missing or empty,
and otherwise 200 with a result body on success or 500 with an error body
on any other failure; a malformed `days` value instead raises out of the
handler before its try block. -/
theorem c8_routes_amended (rt : ApiRoute) (inst : Option Config) (w : World)
    (params : List (String × String))
    (hdays : ∀ s, lookupStr params "days" = some s → ∃ k, pyIntOfString s = .ok k) :
    ∃ resp, (routeHandler rt inst w params).1 = .ok resp ∧
      (if (routeCli rt inst).isNone = true then
         resp.status = 503 ∧ ∃ m, resp.body = errBody m
       else if (needsQuery rt && emptyQueryParam params) = true then
         resp.status = 400 ∧ resp.body = errBody "query parameter required"
       else
         (resp.status = 200 ∧ ∃ t, resp.body = resultBody t) ∨
         (resp.status = 500 ∧ ∃ m, resp.body = errBody m)) := by
  cases rt
  case sRecent =>
    simp only [routeHandler, routeCli, needsQuery]
    cases hcli : instSonarr inst with
    | none =>
        refine ⟨⟨503, errBody "Sonarr not configured"⟩, ?_, ?_⟩
        · simp [routeSonarrRecent, hcli]
        · simp [hcli]
    | some c =>
        obtain ⟨k, hk⟩ := parseDaysParam_ok params 7 hdays
        refine ⟨wrapResult (get_recent_series c w.sonarrNet w.nowUsec (.num k)).1, ?_, ?_⟩
        · simp [routeSonarrRecent, hcli, hk]
        · simp only [hcli, Option.isNone_some, Bool.false_and,
                     Bool.false_eq_true, if_false]
          exact wrapResult_shape _
  case sCalendar =>
    simp only [routeHandler, routeCli, needsQuery]
    cases hcli : instSonarr inst with
    | none =>
        refine ⟨⟨503, errBody "Sonarr not configured"⟩, ?_, ?_⟩
        · simp [routeSonarrCalendar, hcli]
        · simp [hcli]
    | some c =>
        obtain ⟨k, hk⟩ := parseDaysParam_ok params 7 hdays
        refine ⟨wrapResult (get_sonarr_calendar c w.sonarrNet w.nowUsec (.num k)).1, ?_, ?_⟩
        · simp [routeSonarrCalendar, hcli, hk]
        · simp only [hcli, Option.isNone_some, Bool.false_and,
                     Bool.false_eq_true, if_false]
          exact wrapResult_shape _
  case sSearch =>
    simp only [routeHandler, routeCli, needsQuery]
    cases hcli : instSonarr inst with
    | none =>
        refine ⟨⟨503, errBody "Sonarr not configured"⟩, ?_, ?_⟩
        · simp [routeSonarrSearch, hcli]
        · simp [hcli]
    | some c =>
        by_cases hq : emptyQueryParam params
        · refine ⟨⟨400, errBody "query parameter required"⟩, ?_, ?_⟩
          · simp only [emptyQueryParam] at hq
            simp [routeSonarrSearch, hcli, hq]
          · simp [hcli, hq]
        · have hq' : (((lookupStr params "query").getD "").isEmpty = true) = False := by
            simp only [emptyQueryParam] at hq
            simp [hq]
          refine ⟨wrapResult (search_sonarr_series c w.sonarrNet (.str ((lookupStr params "query").getD ""))).1, ?_, ?_⟩
          · simp [routeSonarrSearch, hcli, hq']
          · simp only [hcli, Option.isNone_some, Bool.true_and,
                       Bool.false_eq_true, if_false]
            rw [if_neg (by simpa using hq)]
            exact wrapResult_shape _
  case sStatus =>
    simp only [routeHandler, routeCli, needsQuery]
    cases hcli : instSonarr inst with
    | none =>
        refine ⟨⟨503, errBody "Sonarr not configured"⟩, ?_, ?_⟩
        · simp [routeSonarrStatus, hcli]
        · simp [hcli]
    | some c =>
        refine ⟨wrapResult (get_sonarr_status c w.sonarrNet).1, ?_, ?_⟩
        · simp [routeSonarrStatus, hcli]
        · simp only [hcli, Option.isNone_some, Bool.false_and,
                     Bool.false_eq_true, if_false]
          exact wrapResult_shape _
  case sQueue =>
    simp only [routeHandler, routeCli, needsQuery]
    cases hcli : instSonarr inst with
    | none =>
        refine ⟨⟨503, errBody "Sonarr not configured"⟩, ?_, ?_⟩
        · simp [routeSonarrQueue, hcli]
        · simp [hcli]
    | some c =>
        refine ⟨wrapResult (get_sonarr_queue c w.sonarrNet).1, ?_, ?_⟩
        · simp [routeSonarrQueue, hcli]
        · simp only [hcli, Option.isNone_some, Bool.false_and,
                     Bool.false_eq_true, if_false]
          exact wrapResult_shape _
  case rRecent =>
    simp only [routeHandler, routeCli, needsQuery]
    cases hcli : instRadarr inst with
    | none =>
        refine ⟨⟨503, errBody "Radarr not configured"⟩, ?_, ?_⟩
        · simp [routeRadarrRecent, hcli]
        · simp [hcli]
    | some c =>
        obtain ⟨k, hk⟩ := parseDaysParam_ok params 7 hdays
        refine ⟨wrapResult (get_recent_movies c w.radarrNet w.nowUsec (.num k)).1, ?_, ?_⟩
        · simp [routeRadarrRecent, hcli, hk]
        · simp only [hcli, Option.isNone_some, Bool.false_and,
                     Bool.false_eq_true, if_false]
          exact wrapResult_shape _
  case rCalendar =>
    simp only [routeHandler, routeCli, needsQuery]
    cases hcli : instRadarr inst with
    | none =>
        refine ⟨⟨503, errBody "Radarr not configured"⟩, ?_, ?_⟩
        · simp [routeRadarrCalendar, hcli]
        · simp [hcli]
    | some c =>
        obtain ⟨k, hk⟩ := parseDaysParam_ok params 30 hdays
        refine ⟨wrapResult (get_radarr_calendar c w.radarrNet w.nowUsec (.num k)).1, ?_, ?_⟩
        · simp [routeRadarrCalendar, hcli, hk]
        · simp only [hcli, Option.isNone_some, Bool.false_and,
                     Bool.false_eq_true, if_false]
          exact wrapResult_shape _
  case rSearch =>
    simp only [routeHandler, routeCli, needsQuery]
    cases hcli : instRadarr inst with
    | none =>
        refine ⟨⟨503, errBody "Radarr not configured"⟩, ?_, ?_⟩
        · simp [routeRadarrSearch, hcli]
        · simp [hcli]
    | some c =>
        by_cases hq : emptyQueryParam params
        · refine ⟨⟨400, errBody "query parameter required"⟩, ?_, ?_⟩
          · simp only [emptyQueryParam] at hq
            simp [routeRadarrSearch, hcli, hq]
          · simp [hcli, hq]
        · have hq' : (((lookupStr params "query").getD "").isEmpty = true) = False := by
            simp only [emptyQueryParam] at hq
            simp [hq]
          refine ⟨wrapResult (search_radarr_movies c w.radarrNet (.str ((lookupStr params "query").getD ""))).1, ?_, ?_⟩
          · simp [routeRadarrSearch, hcli, hq']
          · simp only [hcli, Option.isNone_some, Bool.true_and,
                       Bool.false_eq_true, if_false]
            rw [if_neg (by simpa using hq)]
            exact wrapResult_shape _
  case rStatus =>
    simp only [routeHandler, routeCli, needsQuery]
    cases hcli : instRadarr inst with
    | none =>
        refine ⟨⟨503, errBody "Radarr not configured"⟩, ?_, ?_⟩
        · simp [routeRadarrStatus, hcli]
        · simp [hcli]
    | some c =>
        refine ⟨wrapResult (get_radarr_status c w.radarrNet).1, ?_, ?_⟩
        · simp [routeRadarrStatus, hcli]
        · simp only [hcli, Option.isNone_some, Bool.false_and,
                     Bool.false_eq_true, if_false]
          exact wrapResult_shape _
  case rQueue =>
    simp only [routeHandler, routeCli, needsQuery]
    cases hcli : instRadarr inst with
    | none =>
        refine ⟨⟨503, errBody "Radarr not configured"⟩, ?_, ?_⟩
        · simp [routeRadarrQueue, hcli]
        · simp [hcli]
    | some c =>
        refine ⟨wrapResult (get_radarr_queue c w.radarrNet).1, ?_, ?_⟩
        · simp [routeRadarrQueue, hcli]
        · simp only [hcli, Option.isNone_some, Bool.false_and,
                     Bool.false_eq_true, if_false]
          exact wrapResult_shape _

theorem c8_routes_amended_witness :
    ∃ resp, (routeHandler .sQueue (some cfgS) wStub []).1 = .ok resp ∧
      (if (routeCli .sQueue (some cfgS)).isNone = true then
         resp.status = 503 ∧ ∃ m, resp.body = errBody m
       else if (needsQuery .sQueue && emptyQueryParam []) = true then
         resp.status = 400 ∧ resp.body = errBody "query parameter required"
       else
         (resp.status = 200 ∧ ∃ t, resp.body = resultBody t) ∨
         (resp.status = 500 ∧ ∃ m, resp.body = errBody m)) :=
  c8_routes_amended .sQueue (some cfgS) wStub []
    (fun _ h => Option.noConfusion h)

end Servarr
